import Mathlib

/-!
Shallow embedding of the transaction-dashboard frontend
(`samrs03/ns-fe-exercise`): the `TransactionGrid` component
(src/frontend/src/components/TransactionGrid.tsx), the `TransactionList`
component, and the `useDataGrid` hook, together with theorems settling the
frozen claims about them.

Conventions of the embedding:
- JavaScript numbers that only ever hold integers (ids, page, pageSize,
  total, HTTP status, refreshKey) are modelled as `Int`; decimal amounts,
  which no claim computes with, as `Rat`.
- Component state held in React `useState` cells is a record; each event
  handler or async continuation is a function from state (plus its inputs)
  to state, mirroring the `set*` calls it makes.
- `Math.ceil(a / b)` on integers with `b > 0` is ceiling division,
  embedded as `jsCeilDiv`.
- A `fetch` either rejects with a thrown value or resolves with a
  response; `response.ok` is the Fetch API's "status in the range
  200-299" check.
-/

/-- Embeds `Math.ceil(a / b)` for integer `a`, `b` (exact whenever `b > 0`):
the ceiling of the rational `a / b`, computed as `-((-a) / b)` with
floor (Euclidean) division. -/
def jsCeilDiv (a b : Int) : Int := -(Int.ediv (-a) b)

/-- The value thrown inside the `try` block and observed by
`catch (e: unknown)`: either an `Error` carrying a message, or some
non-`Error` value. -/
inductive Thrown where
  | error (msg : String)
  | nonError
deriving DecidableEq, Repr

/-- Embeds `e instanceof Error ? e.message : 'An error occurred'` — the string
both components and the hook store from a caught value. -/
def thrownMessage : Thrown → String
  | .error msg => msg
  | .nonError => "An error occurred"

/-- A resolved `fetch` response: HTTP status plus the JSON-decoded body. -/
structure HttpResponse (β : Type) where
  status : Int
  body : β
deriving DecidableEq, Repr

/-- The Fetch API's `response.ok`: status in the range 200-299. -/
def HttpResponse.ok {β : Type} (r : HttpResponse β) : Bool :=
  200 ≤ r.status && r.status < 300

/-- Outcome of an awaited `fetch` (plus `response.json()`): the promise
chain either rejects with a thrown value (network failure, bad JSON) or
resolves with a response. -/
inductive FetchOutcome (β : Type) where
  | reject (t : Thrown)
  | response (r : HttpResponse β)
deriving DecidableEq, Repr

/-- Since `fetch(url)` with no init object performs an HTTP GET, requests are
modelled as method plus full URL string. -/
structure HttpRequest where
  method : String
  url : String
deriving DecidableEq, Repr

namespace TransactionGrid

/-- Embeds `interface Tag { id, name }`. -/
structure Tag where
  id : Int
  name : String
deriving DecidableEq, Repr

/-- Embeds `interface Category { id, name }`. -/
structure Category where
  id : Int
  name : String
deriving DecidableEq, Repr

/-- Embeds `interface TransactionGridItem`. -/
structure TransactionGridItem where
  id : Int
  description : String
  amount : Rat
  type : String
  category : Category
  user_id : Int
  date : String
  tags : List Tag
deriving DecidableEq, Repr

/-- Embeds `interface TransactionGridResponse { items, total }`. -/
structure TransactionGridResponse where
  items : List TransactionGridItem
  total : Int
deriving DecidableEq, Repr

/-- The `useState` cells of `TransactionGrid`. -/
structure GridState where
  transactions : List TransactionGridItem
  loading : Bool
  total : Int
  error : Option String
  sortBy : String
  sortOrder : String
  page : Int
  pageSize : Int
deriving DecidableEq, Repr

/-- The initial state: `useState` defaults of `TransactionGrid`. -/
def initialState : GridState :=
  { transactions := []
    loading := true
    total := 0
    error := none
    sortBy := "date"
    sortOrder := "desc"
    page := 1
    pageSize := 10 }

/-- Embeds `const totalPages = Math.ceil(total / pageSize)`. -/
def totalPages (s : GridState) : Int := jsCeilDiv s.total s.pageSize

/-- Embeds `const canGoPrevious = page > 1`. -/
def canGoPrevious (s : GridState) : Bool := 1 < s.page

/-- Embeds `const canGoNext = page < totalPages`. -/
def canGoNext (s : GridState) : Bool := s.page < totalPages s

/-- Embeds `handleSort(column)`: toggle the order on the current column,
otherwise switch column and sort descending. -/
def handleSort (s : GridState) (column : String) : GridState :=
  if s.sortBy = column then
    { s with sortOrder := if s.sortOrder = "asc" then "desc" else "asc" }
  else
    { s with sortBy := column, sortOrder := "desc" }

/-- Embeds `handlePreviousPage()`: decrement the page when `canGoPrevious`. -/
def handlePreviousPage (s : GridState) : GridState :=
  if canGoPrevious s then { s with page := s.page - 1 } else s

/-- Embeds `handleNextPage()`: increment the page when `canGoNext`. -/
def handleNextPage (s : GridState) : GridState :=
  if canGoNext s then { s with page := s.page + 1 } else s

/-- The URL string built inside `fetchTransactions` from `backendUrl`
(`import.meta.env.VITE_BACKEND_URL`) and the current state. -/
def requestUrl (backendUrl : String) (s : GridState) : String :=
  backendUrl ++ "/api/v1/transactions/grid?page=" ++ toString s.page ++
    "&size=" ++ toString s.pageSize ++ "&sort_by=" ++ s.sortBy ++
    "&sort_order=" ++ s.sortOrder

/-- The HTTP request `fetchTransactions` issues: `fetch(url)` with no
init object, hence a GET. -/
def gridRequest (backendUrl : String) (s : GridState) : HttpRequest :=
  { method := "GET", url := requestUrl backendUrl s }

/-- The synchronous prefix of `fetchTransactions`, up to the `await`:
`setLoading(true)`. -/
def fetchStart (s : GridState) : GridState :=
  { s with loading := true }

/-- The continuation of `fetchTransactions` once the fetch settles:
on a non-ok response it throws `HTTP error! status: N`, the catch block
stores the thrown message in `error`, on success it stores `items` and
`total`, and `finally` clears `loading`. -/
def fetchSettle (s : GridState) (o : FetchOutcome TransactionGridResponse) :
    GridState :=
  match o with
  | .reject t =>
    { s with error := some (thrownMessage t), loading := false }
  | .response r =>
    if r.ok then
      { s with transactions := r.body.items, total := r.body.total,
               loading := false }
    else
      { s with error := some ("HTTP error! status: " ++ toString r.status),
               loading := false }

/-- The `useEffect` dependency array `[sortBy, sortOrder, page, pageSize]`
of `TransactionGrid`. -/
structure EffectDeps where
  sortBy : String
  sortOrder : String
  page : Int
  pageSize : Int
deriving DecidableEq, Repr

/-- Reads the effect dependencies out of the state. -/
def effectDeps (s : GridState) : EffectDeps :=
  { sortBy := s.sortBy, sortOrder := s.sortOrder, page := s.page,
    pageSize := s.pageSize }

/-- Requests issued when the component re-renders from `prev` to `next`:
React re-runs the effect exactly when an entry of the dependency array
changed, and the effect body calls `fetchTransactions()` once, issuing a
single GET with the new state's parameters. -/
def rerenderRequests (backendUrl : String) (prev next : GridState) :
    List HttpRequest :=
  if effectDeps prev = effectDeps next then []
  else [gridRequest backendUrl next]

/-- Requests issued on mount: the effect runs once after the first
render. -/
def mountRequests (backendUrl : String) (s : GridState) : List HttpRequest :=
  [gridRequest backendUrl s]

/-- A rendered row of the grid's `<tbody>`: a data row keyed by the
item's `id`, or the `No transactions found.` placeholder row. -/
inductive RowView where
  | dataRow (key : Int) (item : TransactionGridItem)
  | noTransactionsRow
deriving DecidableEq, Repr

/-- The `<tbody>` contents: one row per item (in order, keyed by `id`),
then the placeholder row when `transactions.length === 0`. -/
def bodyRows (items : List TransactionGridItem) : List RowView :=
  items.map (fun t => RowView.dataRow t.id t) ++
    (if items.length = 0 then [RowView.noTransactionsRow] else [])

/-- What the component returns: the loading div, the error div, or the
table built from the current transactions. -/
inductive View where
  | loadingView
  | errorView (msg : String)
  | tableView (rows : List RowView)
deriving DecidableEq, Repr

/-- The early returns and the table render of `TransactionGrid`. -/
def render (s : GridState) : View :=
  if s.loading then .loadingView
  else
    match s.error with
    | some e => .errorView e
    | none => .tableView (bodyRows s.transactions)

end TransactionGrid

namespace TransactionList

/-- Embeds `interface Transaction` of `TransactionList` (note the flattened
`category_rel` relation and the absence of tags). -/
structure Transaction where
  id : Int
  description : String
  amount : Rat
  type : String
  category_rel_id : Int
  category_rel_name : String
  date : String
  user_id : Int
deriving DecidableEq, Repr

/-- A rendered row of the list's `<tbody>`: a data row keyed by the
transaction's `id`, or the `No transactions found.` placeholder row. -/
inductive RowView where
  | dataRow (key : Int) (t : Transaction)
  | noTransactionsRow
deriving DecidableEq, Repr

/-- The `<tbody>` contents of `TransactionList`: one row per transaction
(in order, keyed by `id`), then the placeholder row when
`transactions.length === 0`. -/
def bodyRows (transactions : List Transaction) : List RowView :=
  transactions.map (fun t => RowView.dataRow t.id t) ++
    (if transactions.length = 0 then [RowView.noTransactionsRow] else [])

end TransactionList

namespace UseDataGrid

/-- The hook field `sortOrder` is typed `'asc' | 'desc'`. -/
inductive SortOrder where
  | asc
  | desc
deriving DecidableEq, Repr

/-- The string each variant interpolates into the URL. -/
def SortOrder.toUrlString : SortOrder → String
  | .asc => "asc"
  | .desc => "desc"

/-- Embeds `interface UseDataGridConfig` with its defaulted fields resolved the
way the destructuring
`{ path, defaultSortBy = 'date', defaultSortOrder = 'desc', defaultPageSize = 10 }`
does. -/
structure Config where
  path : String
  defaultSortBy : String := "date"
  defaultSortOrder : SortOrder := .desc
  defaultPageSize : Int := 10
deriving DecidableEq, Repr

/-- Embeds `interface GridApiResponse<T> { items, total }`. -/
structure GridApiResponse (T : Type) where
  items : List T
  total : Int
deriving DecidableEq, Repr

/-- The `useState` cells of `useDataGrid<T>`. -/
structure DataGridState (T : Type) where
  data : Option (List T)
  total : Int
  loading : Bool
  error : Option String
  page : Int
  pageSize : Int
  sortBy : String
  sortOrder : SortOrder
  refreshKey : Int
deriving DecidableEq, Repr

variable {T : Type}

/-- The initial hook state: the `useState` defaults derived from the
config. -/
def initState (c : Config) : DataGridState T :=
  { data := none
    total := 0
    loading := false
    error := none
    page := 1
    pageSize := c.defaultPageSize
    sortBy := c.defaultSortBy
    sortOrder := c.defaultSortOrder
    refreshKey := 0 }

/-- Embeds `const totalPages = Math.ceil(total / pageSize)`. -/
def totalPages (s : DataGridState T) : Int := jsCeilDiv s.total s.pageSize

/-- Embeds `const canGoPrevious = page > 1`. -/
def canGoPrevious (s : DataGridState T) : Bool := 1 < s.page

/-- Embeds `const canGoNext = page < totalPages`. -/
def canGoNext (s : DataGridState T) : Bool := s.page < totalPages s

/-- Embeds `setPage(newPage)`: navigate only when `newPage >= 1`. -/
def setPage (s : DataGridState T) (newPage : Int) : DataGridState T :=
  if 1 ≤ newPage then { s with page := newPage } else s

/-- Embeds `setSort(column)`: toggle the order on the current column, otherwise
switch column and sort descending; always reset to page 1. -/
def setSort (s : DataGridState T) (column : String) : DataGridState T :=
  if s.sortBy = column then
    { s with sortOrder := if s.sortOrder = .asc then .desc else .asc,
             page := 1 }
  else
    { s with sortBy := column, sortOrder := .desc, page := 1 }

/-- Embeds `refresh()`: bump the refresh counter without touching any
parameter. -/
def refresh (s : DataGridState T) : DataGridState T :=
  { s with refreshKey := s.refreshKey + 1 }

/-- The URL string built inside `fetchData`:
`http://localhost:8000/${path}?page=...&size=...&sort_by=...&sort_order=...`. -/
def requestUrl (c : Config) (s : DataGridState T) : String :=
  "http://localhost:8000/" ++ c.path ++ "?page=" ++ toString s.page ++
    "&size=" ++ toString s.pageSize ++ "&sort_by=" ++ s.sortBy ++
    "&sort_order=" ++ s.sortOrder.toUrlString

/-- The HTTP request `fetchData` issues: `fetch(url, {})`, a GET. -/
def gridRequest (c : Config) (s : DataGridState T) : HttpRequest :=
  { method := "GET", url := requestUrl c s }

/-- The synchronous prefix of `fetchData`, up to the `await`:
`setLoading(true); setError(null); setData(null)`. -/
def fetchStart (s : DataGridState T) : DataGridState T :=
  { s with loading := true, error := none, data := none }

/-- The continuation of `fetchData` once the fetch settles: a non-ok
response throws `HTTP error! status: N`; the catch block stores the
thrown message in `error` and resets `data` to null and `total` to 0;
success stores `items` and `total`; `finally` clears `loading`. -/
def fetchSettle (s : DataGridState T) (o : FetchOutcome (GridApiResponse T)) :
    DataGridState T :=
  match o with
  | .reject t =>
    { s with error := some (thrownMessage t), data := none, total := 0,
             loading := false }
  | .response r =>
    if r.ok then
      { s with data := some r.body.items, total := r.body.total,
               loading := false }
    else
      { s with error := some ("HTTP error! status: " ++ toString r.status),
               data := none, total := 0, loading := false }

/-- The `useCallback` dependency array `[path, page, pageSize, sortBy,
sortOrder]` of `fetchData`: the memoized callback gets a new identity
exactly when one of these changed. -/
structure FetchDataDeps where
  path : String
  page : Int
  pageSize : Int
  sortBy : String
  sortOrder : SortOrder
deriving DecidableEq, Repr

/-- Reads the `fetchData` callback dependencies out of config and
state. -/
def fetchDataDeps (c : Config) (s : DataGridState T) : FetchDataDeps :=
  { path := c.path, page := s.page, pageSize := s.pageSize,
    sortBy := s.sortBy, sortOrder := s.sortOrder }

/-- The `useEffect` dependency array `[fetchData, refreshKey]`: the
callback's identity is determined by its own dependencies. -/
structure EffectDeps where
  fetchData : FetchDataDeps
  refreshKey : Int
deriving DecidableEq, Repr

/-- Reads the effect dependencies out of config and state. -/
def effectDeps (c : Config) (s : DataGridState T) : EffectDeps :=
  { fetchData := fetchDataDeps c s, refreshKey := s.refreshKey }

/-- Requests issued when the component using the hook re-renders from
`prev` to `next`: React re-runs the effect exactly when an entry of the
dependency array changed, and the effect body calls `fetchData()` once,
issuing a single GET with the new state's parameters. -/
def rerenderRequests (c : Config) (prev next : DataGridState T) :
    List HttpRequest :=
  if effectDeps c prev = effectDeps c next then []
  else [gridRequest c next]

/-- Requests issued on mount: the effect runs once after the first
render. -/
def mountRequests (c : Config) (s : DataGridState T) : List HttpRequest :=
  [gridRequest c s]

end UseDataGrid

namespace TransactionGrid

/-- The `key` attribute of a rendered row, when it is a data row. -/
def rowKey : RowView → Option Int
  | .dataRow k _ => some k
  | .noTransactionsRow => none

end TransactionGrid

namespace TransactionList

/-- The `key` attribute of a rendered row, when it is a data row. -/
def rowKey : RowView → Option Int
  | .dataRow k _ => some k
  | .noTransactionsRow => none

end TransactionList

/-- The first entry of the `dummyData` array of the earlier
`TransactionGrid` revision (`Salary deposit`). -/
def dummyItem1 : TransactionGrid.TransactionGridItem :=
  { id := 1
    description := "Salary deposit"
    amount := 3500.0
    type := "credit"
    category := { id := 1, name := "Income" }
    user_id := 1
    date := "2025-01-10"
    tags := [{ id := 1, name := "Monthly" }, { id := 2, name := "Recurring" }] }

/-- The second entry of the `dummyData` array (`Grocery shopping`). -/
def dummyItem2 : TransactionGrid.TransactionGridItem :=
  { id := 2
    description := "Grocery shopping"
    amount := 150.25
    type := "debit"
    category := { id := 2, name := "Food" }
    user_id := 1
    date := "2025-01-09"
    tags := [{ id := 3, name := "Essential" }] }

/-- A hook configuration as in the hook's own usage example: the grid
endpoint with all defaults. -/
def demoConfig : UseDataGrid.Config :=
  { path := "api/v1/transactions/grid" }

/-- The grid state reached at page 2 with 25 total results: the spec's
concrete pagination example. -/
def demoGridState : TransactionGrid.GridState :=
  { TransactionGrid.initialState with page := 2, total := 25, loading := false }

/-- A hook state (over `Nat` rows) at page 2 with 25 total results. -/
def demoHookState : UseDataGrid.DataGridState Nat :=
  { UseDataGrid.initState demoConfig with page := 2, total := 25 }

/-- A hook state that has just completed a successful fetch of one row
`7` (a mount fetch of `demoConfig` answered with status 200 and body
`{ items: [7], total: 1 }`). -/
def demoLoadedState : UseDataGrid.DataGridState Nat :=
  UseDataGrid.fetchSettle (UseDataGrid.fetchStart (UseDataGrid.initState demoConfig))
    (.response ⟨200, { items := [7], total := 1 }⟩)

/-- For a positive divisor, `jsCeilDiv a b` is the ceiling of `a / b`:
it is the unique integer `k` with `a ≤ k * b < a + b`. -/
theorem jsCeilDiv_spec (a b : Int) (hb : 0 < b) :
    a ≤ jsCeilDiv a b * b ∧ jsCeilDiv a b * b < a + b := by
  have h1 : b * ((-a).ediv b) + (-a).emod b = -a := Int.ediv_add_emod (-a) b
  have h2 : 0 ≤ (-a).emod b := Int.emod_nonneg (-a) (ne_of_gt hb)
  have h3 : (-a).emod b < b := Int.emod_lt_of_pos (-a) hb
  have key : jsCeilDiv a b * b = a + (-a).emod b := by
    unfold jsCeilDiv
    linear_combination -h1
  constructor
  · linarith
  · linarith

/-- C1: in every state of `TransactionGrid` and of `useDataGrid` with
`total ≥ 0`, `pageSize > 0` and `page ≥ 1`, the derived values satisfy
`totalPages = ceil(total / pageSize)` (characterized by
`total ≤ totalPages * pageSize < total + pageSize`),
`canGoPrevious = (page > 1)` and `canGoNext = (page < totalPages)`. -/
theorem spec_c1_pagination_derived :
    (∀ s : TransactionGrid.GridState,
      0 ≤ s.total → 0 < s.pageSize → 1 ≤ s.page →
      (TransactionGrid.canGoPrevious s = true ↔ 1 < s.page) ∧
      (TransactionGrid.canGoNext s = true ↔
        s.page < TransactionGrid.totalPages s) ∧
      s.total ≤ TransactionGrid.totalPages s * s.pageSize ∧
      TransactionGrid.totalPages s * s.pageSize < s.total + s.pageSize) ∧
    (∀ (T : Type) (s : UseDataGrid.DataGridState T),
      0 ≤ s.total → 0 < s.pageSize → 1 ≤ s.page →
      (UseDataGrid.canGoPrevious s = true ↔ 1 < s.page) ∧
      (UseDataGrid.canGoNext s = true ↔
        s.page < UseDataGrid.totalPages s) ∧
      s.total ≤ UseDataGrid.totalPages s * s.pageSize ∧
      UseDataGrid.totalPages s * s.pageSize < s.total + s.pageSize) := by
  constructor
  · intro s _ hsize _
    refine ⟨?_, ?_, jsCeilDiv_spec s.total s.pageSize hsize⟩
    · simp [TransactionGrid.canGoPrevious]
    · simp [TransactionGrid.canGoNext]
  · intro T s _ hsize _
    refine ⟨?_, ?_, jsCeilDiv_spec s.total s.pageSize hsize⟩
    · simp [UseDataGrid.canGoPrevious]
    · simp [UseDataGrid.canGoNext]

/-- Witness for C1 at the spec's concrete example: `page = 2`,
`pageSize = 10`, `total = 25` makes both `canGoPrevious` and `canGoNext`
true, in the component state and in the hook state. -/
theorem spec_c1_pagination_derived_witness :
    TransactionGrid.canGoPrevious demoGridState = true ∧
    TransactionGrid.canGoNext demoGridState = true ∧
    UseDataGrid.canGoPrevious demoHookState = true ∧
    UseDataGrid.canGoNext demoHookState = true := by
  obtain ⟨hGrid, hHook⟩ := spec_c1_pagination_derived
  obtain ⟨g1, g2, -, -⟩ :=
    hGrid demoGridState (by decide) (by decide) (by decide)
  obtain ⟨h1, h2, -, -⟩ :=
    hHook Nat demoHookState (by decide) (by decide) (by decide)
  exact ⟨g1.mpr (by decide), g2.mpr (by decide),
         h1.mpr (by decide), h2.mpr (by decide)⟩

/-- C2: in both `TransactionGrid.fetchTransactions` and the hook's
`fetchData`, a non-ok (non-2xx) response throws and stores the error
string `HTTP error! status: N` with the numeric status; every rejection
is caught and stored as a single flat string (the `Error` message, else
`An error occurred`); the stored `error` is fully characterized by this
one path, the settling of a fetch changes no effect dependency (so no
retry is triggered), and `TransactionGrid` renders the error string in
place of the table. -/
theorem spec_c2_single_error_path :
    (∀ (s : TransactionGrid.GridState)
       (o : FetchOutcome TransactionGrid.TransactionGridResponse),
      (TransactionGrid.fetchSettle s o).error =
        (match o with
         | .reject t => some (thrownMessage t)
         | .response r =>
           if r.ok then s.error
           else some ("HTTP error! status: " ++ toString r.status)) ∧
      TransactionGrid.effectDeps (TransactionGrid.fetchSettle s o) =
        TransactionGrid.effectDeps s) ∧
    (∀ (s : TransactionGrid.GridState) (m : String),
      TransactionGrid.render { s with loading := false, error := some m } =
        .errorView m) ∧
    (∀ (T : Type) (s : UseDataGrid.DataGridState T)
       (o : FetchOutcome (UseDataGrid.GridApiResponse T)),
      (UseDataGrid.fetchSettle s o).error =
        (match o with
         | .reject t => some (thrownMessage t)
         | .response r =>
           if r.ok then s.error
           else some ("HTTP error! status: " ++ toString r.status)) ∧
      ∀ c : UseDataGrid.Config,
        UseDataGrid.effectDeps c (UseDataGrid.fetchSettle s o) =
          UseDataGrid.effectDeps c s) := by
  refine ⟨?_, ?_, ?_⟩
  · intro s o
    rcases o with t | r
    · exact ⟨rfl, rfl⟩
    · constructor
      · simp only [TransactionGrid.fetchSettle]
        split <;> rfl
      · simp only [TransactionGrid.fetchSettle]
        split <;> rfl
  · intro s m
    rfl
  · intro T s o
    rcases o with t | r
    · exact ⟨rfl, fun c => rfl⟩
    · constructor
      · simp only [UseDataGrid.fetchSettle]
        split <;> rfl
      · intro c
        simp only [UseDataGrid.fetchSettle]
        split <;> rfl

/-- C3: both fetches issue a GET whose URL is the grid path followed by
the query parameters `page`, `size`, `sort_by`, `sort_order` taken from
the current state (`TransactionGrid` under its configured backend URL,
the hook under `http://localhost:8000/` with its configured path — the
grid path in its documented usage), and a successful response body
`{ items, total }` is stored as the displayed row list and the count. -/
theorem spec_c3_request_shape :
    (∀ (backendUrl : String) (s : TransactionGrid.GridState),
      (TransactionGrid.gridRequest backendUrl s).method = "GET" ∧
      (TransactionGrid.gridRequest backendUrl s).url =
        backendUrl ++ "/api/v1/transactions/grid" ++
          ("?page=" ++ toString s.page ++ "&size=" ++ toString s.pageSize ++
            "&sort_by=" ++ s.sortBy ++ "&sort_order=" ++ s.sortOrder)) ∧
    (∀ (s : TransactionGrid.GridState)
       (r : TransactionGrid.TransactionGridResponse),
      (TransactionGrid.fetchSettle s (.response ⟨200, r⟩)).transactions =
        r.items ∧
      (TransactionGrid.fetchSettle s (.response ⟨200, r⟩)).total = r.total) ∧
    (∀ (T : Type) (c : UseDataGrid.Config) (s : UseDataGrid.DataGridState T),
      (UseDataGrid.gridRequest c s).method = "GET" ∧
      (UseDataGrid.gridRequest c s).url =
        "http://localhost:8000/" ++ c.path ++
          ("?page=" ++ toString s.page ++ "&size=" ++ toString s.pageSize ++
            "&sort_by=" ++ s.sortBy ++ "&sort_order=" ++
            s.sortOrder.toUrlString)) ∧
    (∀ s : UseDataGrid.DataGridState Nat,
      UseDataGrid.requestUrl demoConfig s =
        "http://localhost:8000/api/v1/transactions/grid" ++
          ("?page=" ++ toString s.page ++ "&size=" ++ toString s.pageSize ++
            "&sort_by=" ++ s.sortBy ++ "&sort_order=" ++
            s.sortOrder.toUrlString)) ∧
    (∀ (T : Type) (s : UseDataGrid.DataGridState T)
       (r : UseDataGrid.GridApiResponse T),
      (UseDataGrid.fetchSettle s (.response ⟨200, r⟩)).data = some r.items ∧
      (UseDataGrid.fetchSettle s (.response ⟨200, r⟩)).total = r.total) := by
  refine ⟨?_, ?_, ?_, ?_, ?_⟩
  · intro backendUrl s
    refine ⟨rfl, ?_⟩
    show TransactionGrid.requestUrl backendUrl s = _
    unfold TransactionGrid.requestUrl
    have hlit : ("/api/v1/transactions/grid?page=" : String) =
        "/api/v1/transactions/grid" ++ "?page=" := by decide
    rw [hlit]
    simp only [String.append_assoc]
  · intro s r
    exact ⟨rfl, rfl⟩
  · intro T c s
    refine ⟨rfl, ?_⟩
    show UseDataGrid.requestUrl c s = _
    unfold UseDataGrid.requestUrl
    simp only [String.append_assoc]
  · intro s
    unfold UseDataGrid.requestUrl
    have hlit : ("http://localhost:8000/" ++ demoConfig.path : String) =
        "http://localhost:8000/api/v1/transactions/grid" := by decide
    rw [hlit]
    simp only [String.append_assoc]
  · intro T s r
    exact ⟨rfl, rfl⟩

/-- C4: on a re-render, exactly one new GET with the updated parameters
is issued precisely when one of the effect dependencies changed —
`page`, `pageSize`, `sortBy`, `sortOrder` or (for the hook) the
`refreshKey` — and no request is issued when none of them changed; the
mount render issues the single initial fetch. -/
theorem spec_c4_refetch_on_change :
    (∀ (T : Type) (c : UseDataGrid.Config)
       (prev next : UseDataGrid.DataGridState T),
      (UseDataGrid.rerenderRequests c prev next =
          [UseDataGrid.gridRequest c next] ↔
        (prev.page ≠ next.page ∨ prev.pageSize ≠ next.pageSize ∨
          prev.sortBy ≠ next.sortBy ∨ prev.sortOrder ≠ next.sortOrder ∨
          prev.refreshKey ≠ next.refreshKey)) ∧
      (UseDataGrid.rerenderRequests c prev next = [] ↔
        (prev.page = next.page ∧ prev.pageSize = next.pageSize ∧
          prev.sortBy = next.sortBy ∧ prev.sortOrder = next.sortOrder ∧
          prev.refreshKey = next.refreshKey))) ∧
    (∀ (backendUrl : String) (prev next : TransactionGrid.GridState),
      (TransactionGrid.rerenderRequests backendUrl prev next =
          [TransactionGrid.gridRequest backendUrl next] ↔
        (prev.page ≠ next.page ∨ prev.pageSize ≠ next.pageSize ∨
          prev.sortBy ≠ next.sortBy ∨ prev.sortOrder ≠ next.sortOrder)) ∧
      (TransactionGrid.rerenderRequests backendUrl prev next = [] ↔
        (prev.page = next.page ∧ prev.pageSize = next.pageSize ∧
          prev.sortBy = next.sortBy ∧ prev.sortOrder = next.sortOrder))) ∧
    (∀ (T : Type) (c : UseDataGrid.Config) (s : UseDataGrid.DataGridState T),
      UseDataGrid.mountRequests c s = [UseDataGrid.gridRequest c s]) := by
  refine ⟨?_, ?_, fun T c s => rfl⟩
  · intro T c prev next
    unfold UseDataGrid.rerenderRequests
    have hdeps : (UseDataGrid.effectDeps c prev = UseDataGrid.effectDeps c next) ↔
        (prev.page = next.page ∧ prev.pageSize = next.pageSize ∧
          prev.sortBy = next.sortBy ∧ prev.sortOrder = next.sortOrder ∧
          prev.refreshKey = next.refreshKey) := by
      unfold UseDataGrid.effectDeps UseDataGrid.fetchDataDeps
      constructor
      · intro h
        injection h with h1 h2
        injection h1
        exact ⟨by assumption, by assumption, by assumption, by assumption, h2⟩
      · rintro ⟨h1, h2, h3, h4, h5⟩
        rw [h1, h2, h3, h4, h5]
    by_cases h : UseDataGrid.effectDeps c prev = UseDataGrid.effectDeps c next
    · have hconj := hdeps.mp h
      constructor
      · simp [h]
        tauto
      · simp [h]
        tauto
    · have hnconj : ¬(prev.page = next.page ∧ prev.pageSize = next.pageSize ∧
          prev.sortBy = next.sortBy ∧ prev.sortOrder = next.sortOrder ∧
          prev.refreshKey = next.refreshKey) := fun hc => h (hdeps.mpr hc)
      constructor
      · simp [h]
        tauto
      · simp [h]
        tauto
  · intro backendUrl prev next
    unfold TransactionGrid.rerenderRequests
    have hdeps : (TransactionGrid.effectDeps prev = TransactionGrid.effectDeps next) ↔
        (prev.page = next.page ∧ prev.pageSize = next.pageSize ∧
          prev.sortBy = next.sortBy ∧ prev.sortOrder = next.sortOrder) := by
      unfold TransactionGrid.effectDeps
      constructor
      · intro h
        injection h
        exact ⟨by assumption, by assumption, by assumption, by assumption⟩
      · rintro ⟨h1, h2, h3, h4⟩
        rw [h1, h2, h3, h4]
    by_cases h : TransactionGrid.effectDeps prev = TransactionGrid.effectDeps next
    · have hconj := hdeps.mp h
      constructor
      · simp [h]
        tauto
      · simp [h]
        tauto
    · have hnconj : ¬(prev.page = next.page ∧ prev.pageSize = next.pageSize ∧
          prev.sortBy = next.sortBy ∧ prev.sortOrder = next.sortOrder) :=
        fun hc => h (hdeps.mpr hc)
      constructor
      · simp [h]
        tauto
      · simp [h]
        tauto

/-- C5 as stated fails on `useDataGrid`: after a successful fetch stored
the row `7`, navigating to page 2 starts the next fetch, and already at
that fetch's start — before any next response has arrived — the held
data is no longer the last successful server response (`fetchData`
clears it to null), while only request parameters were touched by the
page change itself. -/
theorem spec_c5_counterexample :
    demoLoadedState.data = some [7] ∧
    (UseDataGrid.setPage demoLoadedState 2).data = some [7] ∧
    (UseDataGrid.fetchStart (UseDataGrid.setPage demoLoadedState 2)).data ≠
      some [7] := by
  refine ⟨rfl, rfl, ?_⟩
  decide

/-- C5 amended: `TransactionGrid` does hold the last successful
response between fetches — its fetch start and its pagination/sorting
handlers never change `transactions` or `total`, and only a settled
successful response replaces them; in `useDataGrid`, `setPage`,
`setSort` and `refresh` likewise modify only request-parameter state,
but the held data is not kept until the next result arrives: the hook
clears `data` to null at the start of every fetch. -/
theorem spec_c5_frame_amended :
    (∀ s : TransactionGrid.GridState,
      (TransactionGrid.fetchStart s).transactions = s.transactions ∧
      (TransactionGrid.fetchStart s).total = s.total) ∧
    (∀ (s : TransactionGrid.GridState) (c : String),
      (TransactionGrid.handleSort s c).transactions = s.transactions ∧
      (TransactionGrid.handleSort s c).total = s.total ∧
      (TransactionGrid.handlePreviousPage s).transactions = s.transactions ∧
      (TransactionGrid.handlePreviousPage s).total = s.total ∧
      (TransactionGrid.handleNextPage s).transactions = s.transactions ∧
      (TransactionGrid.handleNextPage s).total = s.total) ∧
    (∀ (s : TransactionGrid.GridState)
       (r : TransactionGrid.TransactionGridResponse),
      (TransactionGrid.fetchSettle s (.response ⟨200, r⟩)).transactions =
        r.items ∧
      (TransactionGrid.fetchSettle s (.response ⟨200, r⟩)).total = r.total) ∧
    (∀ (T : Type) (s : UseDataGrid.DataGridState T) (p : Int) (c : String),
      (UseDataGrid.setPage s p).data = s.data ∧
      (UseDataGrid.setPage s p).total = s.total ∧
      (UseDataGrid.setSort s c).data = s.data ∧
      (UseDataGrid.setSort s c).total = s.total ∧
      (UseDataGrid.refresh s).data = s.data ∧
      (UseDataGrid.refresh s).total = s.total) ∧
    (∀ (T : Type) (s : UseDataGrid.DataGridState T),
      (UseDataGrid.fetchStart s).data = none) := by
  refine ⟨fun s => ⟨rfl, rfl⟩, ?_, fun s r => ⟨rfl, rfl⟩, ?_,
    fun T s => rfl⟩
  · intro s c
    refine ⟨?_, ?_, ?_, ?_, ?_, ?_⟩ <;>
      first
        | (simp only [TransactionGrid.handleSort]; split <;> rfl)
        | (simp only [TransactionGrid.handlePreviousPage]; split <;> rfl)
        | (simp only [TransactionGrid.handleNextPage]; split <;> rfl)
  · intro T s p c
    refine ⟨?_, ?_, ?_, ?_, rfl, rfl⟩ <;>
      first
        | (simp only [UseDataGrid.setPage]; split <;> rfl)
        | (simp only [UseDataGrid.setSort]; split <;> rfl)

/-- C6: in both `TransactionGrid` and `TransactionList`, the table body
renders one data row per fetched item, keyed by the item's `id` and in
the order received, plus exactly one `No transactions found.` row when
and only when the list is empty; in particular a 2-item response (the
two sample transactions) renders exactly 2 data rows. -/
theorem spec_c6_row_rendering :
    (∀ items : List TransactionGrid.TransactionGridItem,
      (TransactionGrid.bodyRows items).filterMap TransactionGrid.rowKey =
        items.map (fun t => t.id) ∧
      ((TransactionGrid.bodyRows items).count
          TransactionGrid.RowView.noTransactionsRow =
        if items = [] then 1 else 0) ∧
      (TransactionGrid.bodyRows items).length =
        items.length + (if items = [] then 1 else 0)) ∧
    (∀ transactions : List TransactionList.Transaction,
      (TransactionList.bodyRows transactions).filterMap
          TransactionList.rowKey =
        transactions.map (fun t => t.id) ∧
      ((TransactionList.bodyRows transactions).count
          TransactionList.RowView.noTransactionsRow =
        if transactions = [] then 1 else 0) ∧
      (TransactionList.bodyRows transactions).length =
        transactions.length + (if transactions = [] then 1 else 0)) ∧
    TransactionGrid.bodyRows [dummyItem1, dummyItem2] =
      [.dataRow 1 dummyItem1, .dataRow 2 dummyItem2] := by
  refine ⟨?_, ?_, ?_⟩
  · intro items
    refine ⟨?_, ?_, ?_⟩
    · unfold TransactionGrid.bodyRows
      rw [List.filterMap_append, List.filterMap_map]
      have h1 : (TransactionGrid.rowKey ∘
          fun t => TransactionGrid.RowView.dataRow t.id t) =
          some ∘ (fun t : TransactionGrid.TransactionGridItem => t.id) := rfl
      rw [h1, List.filterMap_eq_map]
      rcases items with _ | ⟨a, l⟩ <;> simp [TransactionGrid.rowKey]
    · unfold TransactionGrid.bodyRows
      rcases items with _ | ⟨a, l⟩
      · simp
      · simp [List.count_append, List.count_eq_zero]
    · unfold TransactionGrid.bodyRows
      rcases items with _ | ⟨a, l⟩ <;> simp
  · intro transactions
    refine ⟨?_, ?_, ?_⟩
    · unfold TransactionList.bodyRows
      rw [List.filterMap_append, List.filterMap_map]
      have h1 : (TransactionList.rowKey ∘
          fun t => TransactionList.RowView.dataRow t.id t) =
          some ∘ (fun t : TransactionList.Transaction => t.id) := rfl
      rw [h1, List.filterMap_eq_map]
      rcases transactions with _ | ⟨a, l⟩ <;> simp [TransactionList.rowKey]
    · unfold TransactionList.bodyRows
      rcases transactions with _ | ⟨a, l⟩
      · simp
      · simp [List.count_append, List.count_eq_zero]
    · unfold TransactionList.bodyRows
      rcases transactions with _ | ⟨a, l⟩ <;> simp
  · rfl

/-- C7: fetch completions overwrite the stored rows unconditionally —
the settle continuation carries no request identity and no cancellation
— so when two requests overlap, the stored items and total are those of
whichever response arrives last; in particular a slower response to the
earlier request, arriving after the later request's response, overwrites
it, in `TransactionGrid` and in the hook alike. -/
theorem spec_c7_last_write_wins :
    (∀ (s : TransactionGrid.GridState)
       (laterResp earlierResp : TransactionGrid.TransactionGridResponse),
      (TransactionGrid.fetchSettle
          (TransactionGrid.fetchSettle s (.response ⟨200, laterResp⟩))
          (.response ⟨200, earlierResp⟩)).transactions =
        earlierResp.items ∧
      (TransactionGrid.fetchSettle
          (TransactionGrid.fetchSettle s (.response ⟨200, laterResp⟩))
          (.response ⟨200, earlierResp⟩)).total = earlierResp.total) ∧
    (∀ (T : Type) (s : UseDataGrid.DataGridState T)
       (laterResp earlierResp : UseDataGrid.GridApiResponse T),
      (UseDataGrid.fetchSettle
          (UseDataGrid.fetchSettle
            (UseDataGrid.fetchStart (UseDataGrid.fetchStart s))
            (.response ⟨200, laterResp⟩))
          (.response ⟨200, earlierResp⟩)).data = some earlierResp.items ∧
      (UseDataGrid.fetchSettle
          (UseDataGrid.fetchSettle
            (UseDataGrid.fetchStart (UseDataGrid.fetchStart s))
            (.response ⟨200, laterResp⟩))
          (.response ⟨200, earlierResp⟩)).total = earlierResp.total) := by
  exact ⟨fun s r1 r2 => ⟨rfl, rfl⟩, fun T s r1 r2 => ⟨rfl, rfl⟩⟩

/-- C8: `page` starts at 1 in both the component and the hook and every
operation preserves `page ≥ 1`: `handlePreviousPage` decrements exactly
when `page > 1`, `handleNextPage` either leaves the page or increments
it, the hook's `setPage` ignores every argument below 1 and stores any
argument `≥ 1`, and the hook's `setSort` sets `page` to exactly 1. -/
theorem spec_c8_page_invariant :
    TransactionGrid.initialState.page = 1 ∧
    (∀ (T : Type) (c : UseDataGrid.Config),
      (UseDataGrid.initState c : UseDataGrid.DataGridState T).page = 1) ∧
    (∀ (s : TransactionGrid.GridState) (col : String),
      (TransactionGrid.handlePreviousPage s).page =
        (if 1 < s.page then s.page - 1 else s.page) ∧
      ((TransactionGrid.handleNextPage s).page = s.page ∨
        (TransactionGrid.handleNextPage s).page = s.page + 1) ∧
      (TransactionGrid.handleSort s col).page = s.page ∧
      (1 ≤ s.page →
        1 ≤ (TransactionGrid.handlePreviousPage s).page ∧
        1 ≤ (TransactionGrid.handleNextPage s).page ∧
        1 ≤ (TransactionGrid.handleSort s col).page)) ∧
    (∀ (T : Type) (s : UseDataGrid.DataGridState T) (p : Int) (col : String),
      (p < 1 → UseDataGrid.setPage s p = s) ∧
      (1 ≤ p → (UseDataGrid.setPage s p).page = p) ∧
      (UseDataGrid.setSort s col).page = 1 ∧
      (UseDataGrid.refresh s).page = s.page ∧
      (1 ≤ s.page →
        1 ≤ (UseDataGrid.setPage s p).page ∧
        1 ≤ (UseDataGrid.setSort s col).page ∧
        1 ≤ (UseDataGrid.refresh s).page)) := by
  refine ⟨rfl, fun T c => rfl, ?_, ?_⟩
  · intro s col
    have hprev : (TransactionGrid.handlePreviousPage s).page =
        (if 1 < s.page then s.page - 1 else s.page) := by
      unfold TransactionGrid.handlePreviousPage TransactionGrid.canGoPrevious
      split
      · rename_i h
        rw [if_pos (by simpa using h)]
      · rename_i h
        rw [if_neg (by simpa using h)]
    have hnext : (TransactionGrid.handleNextPage s).page = s.page ∨
        (TransactionGrid.handleNextPage s).page = s.page + 1 := by
      unfold TransactionGrid.handleNextPage
      split
      · right; rfl
      · left; rfl
    have hsort : (TransactionGrid.handleSort s col).page = s.page := by
      unfold TransactionGrid.handleSort
      split <;> rfl
    refine ⟨hprev, hnext, hsort, ?_⟩
    intro hpage
    refine ⟨?_, ?_, ?_⟩
    · rw [hprev]
      split <;> omega
    · rcases hnext with h | h <;> omega
    · rw [hsort]; exact hpage
  · intro T s p col
    have hset : (UseDataGrid.setSort s col).page = 1 := by
      unfold UseDataGrid.setSort
      split <;> rfl
    refine ⟨?_, ?_, hset, rfl, ?_⟩
    · intro hp
      unfold UseDataGrid.setPage
      rw [if_neg (by omega)]
    · intro hp
      unfold UseDataGrid.setPage
      rw [if_pos hp]
    · intro hpage
      refine ⟨?_, by rw [hset], hpage⟩
      unfold UseDataGrid.setPage
      split
      · rename_i h
        exact h
      · exact hpage

/-- Witness for C8: concrete instances — the grid's previous-page
handler at page 1 stays at page 1, and the hook's `setPage` ignores the
argument 0. -/
theorem spec_c8_page_invariant_witness :
    1 ≤ (TransactionGrid.handlePreviousPage TransactionGrid.initialState).page ∧
    UseDataGrid.setPage (UseDataGrid.initState demoConfig :
      UseDataGrid.DataGridState Nat) 0 = UseDataGrid.initState demoConfig ∧
    (UseDataGrid.setPage demoHookState 5).page = 5 := by
  obtain ⟨-, -, hGrid, hHook⟩ := spec_c8_page_invariant
  refine ⟨((hGrid TransactionGrid.initialState "date").2.2.2 (by decide)).1,
    (hHook Nat (UseDataGrid.initState demoConfig) 0 "date").1 (by decide),
    (hHook Nat demoHookState 5 "date").2.1 (by decide)⟩

/-- C9: sorting is a toggle on the current column — when `sortBy = c`
(and the order is one of its two reachable values, `asc`/`desc`, which
the initial state and every sort call maintain), two consecutive sort
calls on `c` restore `sortOrder` and leave `sortBy` unchanged; when
`sortBy ≠ c` a single call sets `sortBy = c` and `sortOrder = desc`;
the hook's `setSort` resets `page` to 1 on every call while
`TransactionGrid.handleSort` never changes `page`. -/
theorem spec_c9_sort_toggle :
    TransactionGrid.initialState.sortOrder = "desc" ∧
    (∀ (s : TransactionGrid.GridState) (c : String),
      ((TransactionGrid.handleSort s c).sortOrder = "asc" ∨
          (TransactionGrid.handleSort s c).sortOrder = "desc") ∧
      (TransactionGrid.handleSort s c).page = s.page ∧
      ((s.sortOrder = "asc" ∨ s.sortOrder = "desc") → s.sortBy = c →
        (TransactionGrid.handleSort (TransactionGrid.handleSort s c) c).sortOrder =
          s.sortOrder ∧
        (TransactionGrid.handleSort (TransactionGrid.handleSort s c) c).sortBy =
          s.sortBy) ∧
      (s.sortBy ≠ c →
        (TransactionGrid.handleSort s c).sortBy = c ∧
        (TransactionGrid.handleSort s c).sortOrder = "desc")) ∧
    (∀ (T : Type) (s : UseDataGrid.DataGridState T) (c : String),
      (UseDataGrid.setSort s c).page = 1 ∧
      (s.sortBy = c →
        (UseDataGrid.setSort (UseDataGrid.setSort s c) c).sortOrder =
          s.sortOrder ∧
        (UseDataGrid.setSort (UseDataGrid.setSort s c) c).sortBy = s.sortBy) ∧
      (s.sortBy ≠ c →
        (UseDataGrid.setSort s c).sortBy = c ∧
        (UseDataGrid.setSort s c).sortOrder = UseDataGrid.SortOrder.desc)) := by
  refine ⟨rfl, ?_, ?_⟩
  · intro s c
    refine ⟨?_, ?_, ?_, ?_⟩
    · unfold TransactionGrid.handleSort
      split
      · split
        · right; rfl
        · left; rfl
      · right; rfl
    · unfold TransactionGrid.handleSort
      split <;> rfl
    · rintro horder hby
      unfold TransactionGrid.handleSort
      rcases horder with h | h <;>
        simp [hby, h]
    · intro hne
      unfold TransactionGrid.handleSort
      rw [if_neg hne]
      exact ⟨rfl, rfl⟩
  · intro T s c
    have hpage : (UseDataGrid.setSort s c).page = 1 := by
      unfold UseDataGrid.setSort
      split <;> rfl
    refine ⟨hpage, ?_, ?_⟩
    · intro hby
      unfold UseDataGrid.setSort
      rcases horder : s.sortOrder with _ | _ <;>
        simp [hby, horder]
    · intro hne
      unfold UseDataGrid.setSort
      rw [if_neg hne]
      exact ⟨rfl, rfl⟩

/-- Witness for C9: concretely, on the initial grid state (sorted by
`date` descending) two sort calls on `date` restore descending order,
and a single sort call on `amount` switches the column and sorts it
descending; the hook behaves the same from its initial state. -/
theorem spec_c9_sort_toggle_witness :
    (TransactionGrid.handleSort
      (TransactionGrid.handleSort TransactionGrid.initialState "date")
      "date").sortOrder = "desc" ∧
    (TransactionGrid.handleSort TransactionGrid.initialState "amount").sortOrder =
      "desc" ∧
    (UseDataGrid.setSort (UseDataGrid.setSort demoHookState "date")
      "date").sortOrder = demoHookState.sortOrder ∧
    (UseDataGrid.setSort demoHookState "amount").sortBy = "amount" := by
  obtain ⟨-, hGrid, hHook⟩ := spec_c9_sort_toggle
  refine ⟨?_, ((hGrid TransactionGrid.initialState "amount").2.2.2
      (by decide)).2, ?_, ?_⟩
  · have h := ((hGrid TransactionGrid.initialState "date").2.2.1
      (Or.inr (by decide)) (by decide)).1
    rw [h]
    rfl
  · exact ((hHook Nat demoHookState "date").2.1 (by decide)).1
  · exact ((hHook Nat demoHookState "amount").2.2 (by decide)).1

/-- C10: `useDataGrid` does not preserve its data across an in-flight or
failed fetch — `fetchData` begins by clearing `data` and `error` to null
(while raising `loading`), and every settling is fully characterized by:
a rejection stores the `Error` message (else `An error occurred`) and
resets `data` to null and `total` to 0, and a response keeps the rows
only when it is ok, otherwise it stores the HTTP-status error string and
resets `data` and `total` the same way. -/
theorem spec_c10_hook_reset :
    ∀ (T : Type) (s : UseDataGrid.DataGridState T),
      (UseDataGrid.fetchStart s).data = none ∧
      (UseDataGrid.fetchStart s).error = none ∧
      (UseDataGrid.fetchStart s).loading = true ∧
      (∀ t : Thrown,
        (UseDataGrid.fetchSettle s (.reject t)).data = none ∧
        (UseDataGrid.fetchSettle s (.reject t)).total = 0 ∧
        (UseDataGrid.fetchSettle s (.reject t)).error =
          some (thrownMessage t)) ∧
      (∀ m : String,
        (UseDataGrid.fetchSettle s (.reject (.error m))).error = some m) ∧
      (UseDataGrid.fetchSettle s (.reject .nonError)).error =
        some "An error occurred" ∧
      (∀ r : HttpResponse (UseDataGrid.GridApiResponse T),
        (UseDataGrid.fetchSettle s (.response r)).data =
          (if r.ok then some r.body.items else none) ∧
        (UseDataGrid.fetchSettle s (.response r)).total =
          (if r.ok then r.body.total else 0)) := by
  intro T s
  refine ⟨rfl, rfl, rfl, fun t => ⟨rfl, rfl, rfl⟩, fun m => rfl, rfl, ?_⟩
  intro r
  constructor
  · simp only [UseDataGrid.fetchSettle]
    split <;> rfl
  · simp only [UseDataGrid.fetchSettle]
    split <;> rfl
